import Mathlib

/-
Verification of the compliance audit-trail subsystem of
construction-hub-financial-advanced, embedded shallowly from
src/financial-advanced-service/src/services/audit_service.py.

Pure data is modelled directly; the SQLAlchemy session is an explicit
store value threaded through each operation; Python exceptions are
Except values; Flask ambient state (the g object and the request proxy)
is an explicit environment record.
-/

namespace AuditTrail

/-- Structured (JSON-like) values carried by the payload columns.
The Text columns of the table hold json.dumps output; since json.loads
inverts json.dumps, the embedding identifies the stored string with the
value it encodes, so a serialized column has type Option Json. -/
inductive Json where
  | null : Json
  | bool (b : Bool) : Json
  | num (n : Int) : Json
  | str (s : String) : Json
  | arr (xs : List Json) : Json
  | obj (kvs : List (String × Json)) : Json

/-- Python truthiness of a structured value: None, False, 0, empty
string, empty list and empty dict are falsy. -/
def Json.truthy : Json → Bool
  | .null => false
  | .bool b => b
  | .num n => n != 0
  | .str s => !s.isEmpty
  | .arr xs => !xs.isEmpty
  | .obj kvs => !kvs.isEmpty

/-- Embedding of the Python pattern json.dumps(x) if x else None applied
to an optional structured value: falsy payloads are stored as NULL. -/
def truthyOpt (o : Option Json) : Option Json :=
  o.bind (fun j => if j.truthy then some j else none)

/-- Python truthiness of an optional string (None and the empty string
are falsy), as used by the guards in get_audit_trail. -/
def truthyStr : Option String → Bool
  | some s => !s.isEmpty
  | none => false

/-- Embedding of the Python expression a or b for an optional string a:
falls back to b when a is None or empty. -/
def pyOrStr (v : Option String) (dflt : String) : String :=
  match v with
  | some s => if s.isEmpty then dflt else s
  | none => dflt

/-- Embedding of the Python str.upper method (used on function names). -/
def pyUpper (s : String) : String := String.mk (s.data.map Char.toUpper)

/-- Flask g object: ambient per-request identity attributes; a missing
attribute is none, so getattr(g, attr, dflt) is Option.getD. -/
structure GContext where
  user_id : Option String
  user_email : Option String
  session_id : Option String

/-- Flask request proxy contents used by log_action. The proxy is falsy
outside a request context, hence an Option Request in the environment. -/
structure Request where
  remote_addr : Option String
  user_agent : Option String
  method : String
  endpoint : Option String
  json_body : Option Json

/-- Ambient execution environment of one log_action call: the g object,
the request proxy, the clock (datetime.utcnow as an abstract instant)
and the uuid generator output for this call. -/
structure Env where
  g : GContext
  req : Option Request
  now : Nat
  freshId : String

/-- One row of the audit_logs table (class AuditLog of the source),
with column defaults applied at insert: status defaults to SUCCESS,
retention_period_days to 2555, archived to false, everything else
nullable to NULL. -/
structure AuditLog where
  id : String
  user_id : String
  user_email : Option String
  session_id : Option String
  ip_address : Option String
  user_agent : Option String
  action : String
  resource_type : String
  resource_id : Option String
  service_name : String
  http_method : Option String
  endpoint : Option String
  request_payload : Option Json
  response_status : Option Int
  response_payload : Option Json
  old_values : Option Json
  new_values : Option Json
  business_context : Option String
  risk_level : String
  compliance_flags : Option Json
  timestamp : Nat
  processing_time_ms : Option Nat
  status : String
  error_message : Option String
  metadata : Option Json
  retention_period_days : Nat
  archived : Bool
  archived_at : Option Nat

/-- The persistence store (db.session plus the audit_logs table):
a list of committed rows, and a flag saying whether the commit path
raises (store unavailable or serialization failure), which is the
failure mode caught by the except block of log_action. -/
structure DB where
  rows : List AuditLog
  commitFails : Bool

/-- A raised Python exception, reduced to its message (str(e)). -/
structure PyErr where
  msg : String

/-- The AuditLog constructor call of AuditService.log_action
(lines 105-124 of audit_service.py), field by field; columns the call
does not pass keep their schema defaults (status SUCCESS aside, which
the call passes explicitly). -/
def builtRecord (env : Env) (action : String) (resource_type : String)
    (resource_id : Option String) (old_values : Option Json) (new_values : Option Json)
    (business_context : Option String) (risk_level : String)
    (compliance_flags : Option Json) : AuditLog := {
    id := env.freshId
    user_id := (env.g.user_id).getD "system"
    user_email := env.g.user_email
    session_id := env.g.session_id
    ip_address := env.req.bind Request.remote_addr
    user_agent := env.req.bind Request.user_agent
    action := action
    resource_type := resource_type
    resource_id := resource_id
    service_name := "financial-advanced"
    http_method := env.req.map Request.method
    endpoint := env.req.bind Request.endpoint
    request_payload := truthyOpt (env.req.bind Request.json_body)
    response_status := none
    response_payload := none
    old_values := truthyOpt old_values
    new_values := truthyOpt new_values
    business_context := business_context
    risk_level := risk_level
    compliance_flags := truthyOpt compliance_flags
    timestamp := env.now
    processing_time_ms := none
    status := "SUCCESS"
    error_message := none
    metadata := none
    retention_period_days := 2555
    archived := false
    archived_at := none }

/-- AuditService.log_action (lines 82-135 of audit_service.py).
Builds the AuditLog row from the ambient context and the arguments,
then commits it; any exception in the try block (modelled by
db.commitFails) is caught and converted to a None return with the
store left unchanged. -/
def log_action (env : Env) (db : DB) (action : String) (resource_type : String)
    (resource_id : Option String) (old_values : Option Json) (new_values : Option Json)
    (business_context : Option String) (risk_level : String)
    (compliance_flags : Option Json) : Option String × DB :=
  let audit_log : AuditLog := builtRecord env action resource_type resource_id
    old_values new_values business_context risk_level compliance_flags
  if db.commitFails then
    (none, db)
  else
    (some audit_log.id, { db with rows := db.rows ++ [audit_log] })

/-- AuditService.log_error (lines 138-149): delegates to log_action with
a business_context wrapping the message and risk_level HIGH; it passes
no status and no error_message argument. -/
def log_error (env : Env) (db : DB) (action : String) (resource_type : String)
    (error_message : String) (resource_id : Option String) : Option String × DB :=
  log_action env db action resource_type resource_id none none
    (some ("Error occurred: " ++ error_message)) "HIGH" none

/-- One step of query-building in get_audit_trail: the Python pattern
if cond: query = query.filter(p). -/
def applyIf (b : Bool) (p : AuditLog → Bool) (q : List AuditLog) : List AuditLog :=
  if b then q.filter p else q

/-- The filter chain of get_audit_trail (lines 158-169), innermost
applied first, mirroring the order of the source: resource_type,
resource_id, user_id, start_date, end_date. String filters are guarded
by Python truthiness; datetime arguments are always truthy when
present. -/
def queryRows (db : DB) (resource_type resource_id user_id : Option String)
    (start_date end_date : Option Nat) : List AuditLog :=
  applyIf end_date.isSome (fun r => decide (r.timestamp ≤ end_date.getD 0))
    (applyIf start_date.isSome (fun r => decide (start_date.getD 0 ≤ r.timestamp))
      (applyIf (truthyStr user_id) (fun r => r.user_id == user_id.getD "")
        (applyIf (truthyStr resource_id) (fun r => r.resource_id == some (resource_id.getD ""))
          (applyIf (truthyStr resource_type) (fun r => r.resource_type == resource_type.getD "")
            db.rows))))

/-- Descending-timestamp comparison used by order_by(timestamp.desc()). -/
def tsDesc (a b : AuditLog) : Prop := b.timestamp ≤ a.timestamp

instance : DecidableRel tsDesc := fun a b => Nat.decLe b.timestamp a.timestamp

instance : IsTotal AuditLog tsDesc := ⟨fun a b => Nat.le_total b.timestamp a.timestamp⟩

instance : IsTrans AuditLog tsDesc := ⟨fun _ _ _ hab hbc => Nat.le_trans hbc hab⟩

/-- AuditService.get_audit_trail (lines 152-171): filter chain, then
order_by(timestamp.desc()).limit(limit).all(). -/
def get_audit_trail (db : DB) (resource_type resource_id user_id : Option String)
    (start_date end_date : Option Nat) (limit : Nat) : List AuditLog :=
  (List.insertionSort tsDesc
    (queryRows db resource_type resource_id user_id start_date end_date)).take limit

/-- Calls of get_audit_trail that leave the limit parameter at its
declared default of 100. -/
def get_audit_trail_default (db : DB) (resource_type resource_id user_id : Option String)
    (start_date end_date : Option Nat) : List AuditLog :=
  get_audit_trail db resource_type resource_id user_id start_date end_date 100

/-- The decorated_function produced by audit_required (lines 173-215):
runs the wrapped operation, logs through log_action on normal return
(computing a processing time that is never passed on) and through
log_error on an exception, which is then re-raised. The outcome of the
wrapped zero-argument operation for this invocation is the result
argument. -/
def decorated_function {α : Type} (action resource_type : Option String) (risk_level : String)
    (fname : String) (env : Env) (db : DB) (result : Except PyErr α) :
    Except PyErr α × DB :=
  let start_time := env.now
  match result with
  | Except.ok v =>
      let _processing_time := (env.now - start_time) * 1000
      let r := log_action env db (pyOrStr action (pyUpper fname)) (pyOrStr resource_type "unknown")
        none none none (some ("Function " ++ fname ++ " executed successfully")) risk_level none
      (Except.ok v, r.2)
  | Except.error e =>
      let r := log_error env db (pyOrStr action (pyUpper fname)) (pyOrStr resource_type "unknown")
        e.msg none
      (Except.error e, r.2)

/-- Environment of a context-free call site: no user bound on g, no
request context (background job, startup health check). -/
def envSys : Env := {
  g := { user_id := none, user_email := none, session_id := none }
  req := none
  now := 1000
  freshId := "id-001" }

/-- An empty, available store. -/
def dbEmpty : DB := { rows := [], commitFails := false }

/-- An unavailable store: the commit path raises. -/
def dbDown : DB := { rows := [], commitFails := true }

/-- A concrete committed row used by the query witnesses. -/
def recP1 : AuditLog := {
  id := "id-001"
  user_id := "system"
  user_email := none
  session_id := none
  ip_address := none
  user_agent := none
  action := "CREATE"
  resource_type := "project"
  resource_id := some "P1"
  service_name := "financial-advanced"
  http_method := none
  endpoint := none
  request_payload := none
  response_status := none
  response_payload := none
  old_values := none
  new_values := none
  business_context := none
  risk_level := "LOW"
  compliance_flags := none
  timestamp := 1000
  processing_time_ms := none
  status := "SUCCESS"
  error_message := none
  metadata := none
  retention_period_days := 2555
  archived := false
  archived_at := none }

/-- A store holding exactly the row recP1. -/
def dbOne : DB := { rows := [recP1], commitFails := false }

/-- Helper: on an available store, log_action commits exactly the row
built by the constructor call and returns its id. -/
theorem log_action_ok (env : Env) (db : DB) (a rt : String) (rid : Option String)
    (ov nv : Option Json) (bc : Option String) (rl : String) (cf : Option Json)
    (hdb : db.commitFails = false) :
    log_action env db a rt rid ov nv bc rl cf
      = (some (builtRecord env a rt rid ov nv bc rl cf).id,
         { db with rows := db.rows ++ [builtRecord env a rt rid ov nv bc rl cf] }) := by
  unfold log_action
  rw [hdb]
  simp

/-- Helper: membership through one conditional filter step. -/
theorem mem_applyIf {r : AuditLog} {b : Bool} {p : AuditLog → Bool} {q : List AuditLog} :
    r ∈ applyIf b p q ↔ r ∈ q ∧ (b = true → p r = true) := by
  cases b <;> simp [applyIf, List.mem_filter]

/-- Helper: a conditional filter step never lengthens the list. -/
theorem length_applyIf_le (b : Bool) (p : AuditLog → Bool) (q : List AuditLog) :
    (applyIf b p q).length ≤ q.length := by
  cases b
  · simp [applyIf]
  · simpa [applyIf] using List.length_filter_le p q

/-- Helper: membership in the filter chain of get_audit_trail, stated
as the conjunction of the five guarded conditions. -/
theorem mem_queryRows {r : AuditLog} {db : DB} {rt rid uid : Option String}
    {sd ed : Option Nat} :
    r ∈ queryRows db rt rid uid sd ed ↔
      r ∈ db.rows ∧
      (truthyStr rt = true → r.resource_type = rt.getD "") ∧
      (truthyStr rid = true → r.resource_id = some (rid.getD "")) ∧
      (truthyStr uid = true → r.user_id = uid.getD "") ∧
      (sd.isSome = true → sd.getD 0 ≤ r.timestamp) ∧
      (ed.isSome = true → r.timestamp ≤ ed.getD 0) := by
  simp only [queryRows, mem_applyIf, decide_eq_true_eq, beq_iff_eq]
  tauto

/-- Helper: the filter chain never lengthens the row list. -/
theorem length_queryRows_le (db : DB) (rt rid uid : Option String) (sd ed : Option Nat) :
    (queryRows db rt rid uid sd ed).length ≤ db.rows.length := by
  unfold queryRows
  exact le_trans (length_applyIf_le _ _ _)
    (le_trans (length_applyIf_le _ _ _)
      (le_trans (length_applyIf_le _ _ _)
        (le_trans (length_applyIf_le _ _ _) (length_applyIf_le _ _ _))))

/-- Helper: a row surviving the filter chain is returned by
get_audit_trail whenever the limit is at least the table size. -/
theorem mem_get_audit_trail {db : DB} {rt rid uid : Option String} {sd ed : Option Nat}
    {limit : Nat} {r : AuditLog} (hr : r ∈ queryRows db rt rid uid sd ed)
    (hlim : db.rows.length ≤ limit) :
    r ∈ get_audit_trail db rt rid uid sd ed limit := by
  unfold get_audit_trail
  rw [List.take_of_length_le]
  · exact (List.mem_insertionSort tsDesc).mpr hr
  · rw [List.length_insertionSort]
    exact le_trans (length_queryRows_le db rt rid uid sd ed) hlim

/-- C1: the claim says a raising wrapped operation persists one record
with status FAILURE and a non-empty error_message. At the concrete
failing input below (declared CREATE on payment, operation raising
"insufficient funds") the single persisted record instead has status
SUCCESS and a NULL error_message: log_action hard-codes status SUCCESS
and never sets the error_message column, and log_error only folds the
message into business_context. -/
theorem audit_error_persisted_as_success :
    ((decorated_function (some "CREATE") (some "payment") "MEDIUM" "create_payment" envSys
        dbEmpty (Except.error { msg := "insufficient funds" } : Except PyErr Unit)).2.rows.map
      (fun r => (r.status, r.error_message, r.business_context)))
      = [("SUCCESS", none, some "Error occurred: insufficient funds")] ∧
    ("SUCCESS" : String) ≠ "FAILURE" :=
  ⟨rfl, by decide⟩

/-- C2: every failure of the persistence path is caught inside
log_action, which returns None with the store unchanged, and a wrapped
operation that succeeds still returns its normal result on an
unavailable store. -/
theorem audit_failure_swallowed {α : Type} (env : Env) (db : DB) (a rt : String)
    (rid : Option String) (ov nv : Option Json) (bc : Option String) (rl : String)
    (cf : Option Json) (action resource_type : Option String) (risk fname : String)
    (v : α) (hdb : db.commitFails = true) :
    log_action env db a rt rid ov nv bc rl cf = (none, db) ∧
    (decorated_function action resource_type risk fname env db (Except.ok v)).1
      = Except.ok v := by
  constructor
  · unfold log_action
    rw [hdb]
    simp
  · rfl

/-- C3: a wrapped operation that returns normally persists exactly one
record, with status SUCCESS and the declared risk level, and the
wrapper hands back the operation result unchanged. -/
theorem capture_success_one_record {α : Type} (action resource_type : Option String)
    (risk_level fname : String) (env : Env) (db : DB) (v : α)
    (hdb : db.commitFails = false) :
    (decorated_function action resource_type risk_level fname env db (Except.ok v)).1
        = Except.ok v ∧
    ∃ rec, (decorated_function action resource_type risk_level fname env db
        (Except.ok v)).2.rows = db.rows ++ [rec] ∧
      rec.status = "SUCCESS" ∧ rec.risk_level = risk_level := by
  have h := log_action_ok env db (pyOrStr action (pyUpper fname))
    (pyOrStr resource_type "unknown") none none none
    (some ("Function " ++ fname ++ " executed successfully")) risk_level none hdb
  refine ⟨rfl, builtRecord env (pyOrStr action (pyUpper fname))
    (pyOrStr resource_type "unknown") none none none
    (some ("Function " ++ fname ++ " executed successfully")) risk_level none, ?_, rfl, rfl⟩
  show (log_action env db (pyOrStr action (pyUpper fname)) (pyOrStr resource_type "unknown")
    none none none (some ("Function " ++ fname ++ " executed successfully"))
    risk_level none).2.rows = _
  rw [h]

/-- C4: a wrapped operation that raises persists exactly one record
whose risk_level is HIGH whatever the declared risk level was, and the
original error is re-raised unchanged to the caller. -/
theorem capture_failure_high_risk {α : Type} (action resource_type : Option String)
    (risk_level fname : String) (env : Env) (db : DB) (e : PyErr)
    (hdb : db.commitFails = false) :
    (decorated_function action resource_type risk_level fname env db
        (Except.error e : Except PyErr α)).1 = Except.error e ∧
    ∃ rec, (decorated_function action resource_type risk_level fname env db
        (Except.error e : Except PyErr α)).2.rows = db.rows ++ [rec] ∧
      rec.risk_level = "HIGH" := by
  have h := log_action_ok env db (pyOrStr action (pyUpper fname))
    (pyOrStr resource_type "unknown") none none none
    (some ("Error occurred: " ++ e.msg)) "HIGH" none hdb
  refine ⟨rfl, builtRecord env (pyOrStr action (pyUpper fname))
    (pyOrStr resource_type "unknown") none none none
    (some ("Error occurred: " ++ e.msg)) "HIGH" none, ?_, rfl⟩
  show (log_action env db (pyOrStr action (pyUpper fname)) (pyOrStr resource_type "unknown")
    none none none (some ("Error occurred: " ++ e.msg)) "HIGH" none).2.rows = _
  rw [h]

/-- C2 witness: the concrete unavailable store dbDown. -/
theorem audit_failure_swallowed_witness :
    dbDown.commitFails = true ∧
    (log_action envSys dbDown "CREATE" "payment" none none none none "LOW" none
        = (none, dbDown) ∧
      (decorated_function (some "CREATE") (some "payment") "LOW" "create_payment" envSys dbDown
        (Except.ok (42 : Nat))).1 = Except.ok 42) :=
  ⟨rfl, audit_failure_swallowed envSys dbDown "CREATE" "payment" none none none none "LOW"
    none (some "CREATE") (some "payment") "LOW" "create_payment" 42 rfl⟩

/-- C3 witness: a successful health check wrapped at declared risk LOW
against the empty available store. -/
theorem capture_success_one_record_witness :
    dbEmpty.commitFails = false ∧
    ((decorated_function (some "HEALTH_CHECK") (some "system") "LOW" "health_check" envSys
        dbEmpty (Except.ok (7 : Nat))).1 = Except.ok 7 ∧
      ∃ rec, (decorated_function (some "HEALTH_CHECK") (some "system") "LOW" "health_check"
        envSys dbEmpty (Except.ok (7 : Nat))).2.rows = dbEmpty.rows ++ [rec] ∧
        rec.status = "SUCCESS" ∧ rec.risk_level = "LOW") :=
  ⟨rfl, capture_success_one_record (some "HEALTH_CHECK") (some "system") "LOW" "health_check"
    envSys dbEmpty 7 rfl⟩

/-- C4 witness: a raising operation declared at risk CRITICAL still
yields a HIGH record and the error comes back to the caller. -/
theorem capture_failure_high_risk_witness :
    dbEmpty.commitFails = false ∧
    ((decorated_function (some "CREATE") (some "payment") "CRITICAL" "create_payment" envSys
        dbEmpty (Except.error { msg := "payment gateway timeout" } : Except PyErr Nat)).1
        = Except.error { msg := "payment gateway timeout" } ∧
      ∃ rec, (decorated_function (some "CREATE") (some "payment") "CRITICAL" "create_payment"
        envSys dbEmpty (Except.error { msg := "payment gateway timeout" }
          : Except PyErr Nat)).2.rows = dbEmpty.rows ++ [rec] ∧
        rec.risk_level = "HIGH") :=
  ⟨rfl, capture_failure_high_risk (some "CREATE") (some "payment") "CRITICAL" "create_payment"
    envSys dbEmpty { msg := "payment gateway timeout" } rfl⟩

/-- C5: every record returned by get_audit_trail comes from the store
and satisfies each supplied filter (equality for the string filters,
boundary-inclusive bounds for the time filters), the filters combining
by conjunction; conversely a stored record matching every supplied
filter is returned whenever the limit does not cut it off, so omitted
filters are not applied. A supplied string filter is a non-empty
string, matching the truthiness guards of the source. -/
theorem get_audit_trail_filters (db : DB) (rt rid uid : Option String)
    (sd ed : Option Nat) (limit : Nat) :
    (∀ r ∈ get_audit_trail db rt rid uid sd ed limit,
      r ∈ db.rows ∧
      (∀ s, rt = some s → s.isEmpty = false → r.resource_type = s) ∧
      (∀ s, rid = some s → s.isEmpty = false → r.resource_id = some s) ∧
      (∀ s, uid = some s → s.isEmpty = false → r.user_id = s) ∧
      (∀ d, sd = some d → d ≤ r.timestamp) ∧
      (∀ d, ed = some d → r.timestamp ≤ d)) ∧
    (∀ r ∈ db.rows,
      (∀ s, rt = some s → s.isEmpty = false → r.resource_type = s) →
      (∀ s, rid = some s → s.isEmpty = false → r.resource_id = some s) →
      (∀ s, uid = some s → s.isEmpty = false → r.user_id = s) →
      (∀ d, sd = some d → d ≤ r.timestamp) →
      (∀ d, ed = some d → r.timestamp ≤ d) →
      db.rows.length ≤ limit →
      r ∈ get_audit_trail db rt rid uid sd ed limit) := by
  constructor
  · intro r hr
    unfold get_audit_trail at hr
    have hq : r ∈ queryRows db rt rid uid sd ed :=
      (List.mem_insertionSort tsDesc).mp (List.mem_of_mem_take hr)
    obtain ⟨hmem, h1, h2, h3, h4, h5⟩ := mem_queryRows.mp hq
    refine ⟨hmem, ?_, ?_, ?_, ?_, ?_⟩
    · intro s hs hemp
      subst hs
      simpa using h1 (by simp [truthyStr, hemp])
    · intro s hs hemp
      subst hs
      simpa using h2 (by simp [truthyStr, hemp])
    · intro s hs hemp
      subst hs
      simpa using h3 (by simp [truthyStr, hemp])
    · intro d hd
      subst hd
      simpa using h4 rfl
    · intro d hd
      subst hd
      simpa using h5 rfl
  · intro r hr h1 h2 h3 h4 h5 hlim
    refine mem_get_audit_trail (mem_queryRows.mpr ⟨hr, ?_, ?_, ?_, ?_, ?_⟩) hlim
    · intro ht
      match rt, ht with
      | some s, ht =>
        have hemp : s.isEmpty = false := by simpa [truthyStr] using ht
        simpa using h1 s rfl hemp
    · intro ht
      match rid, ht with
      | some s, ht =>
        have hemp : s.isEmpty = false := by simpa [truthyStr] using ht
        simpa using h2 s rfl hemp
    · intro ht
      match uid, ht with
      | some s, ht =>
        have hemp : s.isEmpty = false := by simpa [truthyStr] using ht
        simpa using h3 s rfl hemp
    · intro ht
      match sd, ht with
      | some d, _ => simpa using h4 d rfl
    · intro ht
      match ed, ht with
      | some d, _ => simpa using h5 d rfl

/-- C5 witness: the store holding exactly recP1, queried with matching
resource_type and resource_id filters, returns recP1. -/
theorem get_audit_trail_filters_witness :
    recP1 ∈ get_audit_trail dbOne (some "project") (some "P1") none none none 100 ∧
    recP1.resource_type = "project" ∧ recP1.resource_id = some "P1" := by
  have h := (get_audit_trail_filters dbOne (some "project") (some "P1") none none none 100).2
  refine ⟨h recP1 ?_ ?_ ?_ ?_ ?_ ?_ ?_, rfl, rfl⟩
  · exact List.mem_cons_self recP1 []
  · intro s hs _hemp
    cases hs
    rfl
  · intro s hs _hemp
    cases hs
    rfl
  · exact fun s hs _hemp => nomatch hs
  · exact fun d hd => nomatch hd
  · exact fun d hd => nomatch hd
  · decide

/-- C6: the trail query returns a sequence sorted by timestamp in
descending order, of length at most the limit, and calls leaving the
limit at its declared default use 100. -/
theorem get_audit_trail_sorted_limited (db : DB) (rt rid uid : Option String)
    (sd ed : Option Nat) (limit : Nat) :
    List.Sorted tsDesc (get_audit_trail db rt rid uid sd ed limit) ∧
    (get_audit_trail db rt rid uid sd ed limit).length ≤ limit ∧
    get_audit_trail_default db rt rid uid sd ed
      = get_audit_trail db rt rid uid sd ed 100 := by
  refine ⟨?_, ?_, rfl⟩
  · exact List.Pairwise.sublist (List.take_sublist _ _) (List.sorted_insertionSort tsDesc _)
  · unfold get_audit_trail
    rw [List.length_take]
    exact min_le_left _ _

/-- C7 (amended): a truthy old_values and new_values payload written
through log_action is stored on the committed record and that record is
returned by a subsequent unfiltered trail query with a sufficient
limit, with both payloads read back equal to what was written. -/
theorem log_roundtrip_truthy (env : Env) (db : DB) (a rt : String) (rid : Option String)
    (bc : Option String) (rl : String) (cf : Option Json) (ov nv : Json)
    (hov : ov.truthy = true) (hnv : nv.truthy = true) (hdb : db.commitFails = false) :
    ∃ rec, (log_action env db a rt rid (some ov) (some nv) bc rl cf).2.rows
        = db.rows ++ [rec] ∧
      rec ∈ get_audit_trail (log_action env db a rt rid (some ov) (some nv) bc rl cf).2
          none none none none none (db.rows.length + 1) ∧
      rec.old_values = some ov ∧ rec.new_values = some nv := by
  have h := log_action_ok env db a rt rid (some ov) (some nv) bc rl cf hdb
  refine ⟨builtRecord env a rt rid (some ov) (some nv) bc rl cf, ?_, ?_, ?_, ?_⟩
  · rw [h]
  · rw [h]
    refine mem_get_audit_trail ?_ ?_
    · show builtRecord env a rt rid (some ov) (some nv) bc rl cf ∈
        db.rows ++ [builtRecord env a rt rid (some ov) (some nv) bc rl cf]
      exact List.mem_append_right _ (List.mem_cons_self _ [])
    · show (db.rows ++ [builtRecord env a rt rid (some ov) (some nv) bc rl cf]).length
        ≤ db.rows.length + 1
      simp
  · show truthyOpt (some ov) = some ov
    simp [truthyOpt, hov]
  · show truthyOpt (some nv) = some nv
    simp [truthyOpt, hnv]

/-- C7 counterexample: the empty object is a structured payload, yet a
record written with it stores NULL in both columns (the truthiness
guard of json.dumps(x) if x else None drops it), so reading the record
back cannot yield a structure equal to the written one. -/
theorem log_roundtrip_empty_payload_cex :
    ((log_action envSys dbEmpty "UPDATE" "project" none (some (Json.obj []))
        (some (Json.obj [])) none "LOW" none).2.rows.map
      (fun r => (r.old_values, r.new_values))) = [(none, none)] ∧
    (none : Option Json) ≠ some (Json.obj []) :=
  ⟨rfl, fun h => Option.noConfusion h⟩

/-- C7 witness: concrete non-empty before and after payloads survive
the round trip through write and query. -/
theorem log_roundtrip_truthy_witness :
    (Json.obj [("amount", Json.num 5)]).truthy = true ∧
    (Json.obj [("amount", Json.num 7)]).truthy = true ∧
    dbEmpty.commitFails = false ∧
    ∃ rec, (log_action envSys dbEmpty "UPDATE" "project" (some "P1")
        (some (Json.obj [("amount", Json.num 5)]))
        (some (Json.obj [("amount", Json.num 7)])) none "MEDIUM" none).2.rows
        = dbEmpty.rows ++ [rec] ∧
      rec ∈ get_audit_trail (log_action envSys dbEmpty "UPDATE" "project" (some "P1")
          (some (Json.obj [("amount", Json.num 5)]))
          (some (Json.obj [("amount", Json.num 7)])) none "MEDIUM" none).2
          none none none none none (dbEmpty.rows.length + 1) ∧
      rec.old_values = some (Json.obj [("amount", Json.num 5)]) ∧
      rec.new_values = some (Json.obj [("amount", Json.num 7)]) :=
  ⟨rfl, rfl, rfl, log_roundtrip_truthy envSys dbEmpty "UPDATE" "project" (some "P1") none
    "MEDIUM" none (Json.obj [("amount", Json.num 5)]) (Json.obj [("amount", Json.num 7)])
    rfl rfl rfl⟩

/-- C8: with no declared action and no declared resource_type, both the
success and the failure path persist a record whose action is the
wrapped function name upper-cased and whose resource_type is
unknown. -/
theorem capture_default_action_and_resource {α : Type} (risk fname : String) (env : Env)
    (db : DB) (res : Except PyErr α) (hdb : db.commitFails = false) :
    ∃ rec, (decorated_function none none risk fname env db res).2.rows
        = db.rows ++ [rec] ∧
      rec.action = pyUpper fname ∧ rec.resource_type = "unknown" := by
  cases res with
  | ok v =>
      have h := log_action_ok env db (pyUpper fname) "unknown" none none none
        (some ("Function " ++ fname ++ " executed successfully")) risk none hdb
      refine ⟨builtRecord env (pyUpper fname) "unknown" none none none
        (some ("Function " ++ fname ++ " executed successfully")) risk none, ?_, rfl, rfl⟩
      show (log_action env db (pyUpper fname) "unknown" none none none
        (some ("Function " ++ fname ++ " executed successfully")) risk none).2.rows = _
      rw [h]
  | error e =>
      have h := log_action_ok env db (pyUpper fname) "unknown" none none none
        (some ("Error occurred: " ++ e.msg)) "HIGH" none hdb
      refine ⟨builtRecord env (pyUpper fname) "unknown" none none none
        (some ("Error occurred: " ++ e.msg)) "HIGH" none, ?_, rfl, rfl⟩
      show (log_action env db (pyUpper fname) "unknown" none none none
        (some ("Error occurred: " ++ e.msg)) "HIGH" none).2.rows = _
      rw [h]

/-- C8 witness: wrapping create_payment with nothing declared records
action CREATE_PAYMENT on resource_type unknown. -/
theorem capture_default_action_and_resource_witness :
    dbEmpty.commitFails = false ∧
    pyUpper "create_payment" = "CREATE_PAYMENT" ∧
    ∃ rec, (decorated_function none none "LOW" "create_payment" envSys dbEmpty
        (Except.ok (1 : Nat))).2.rows = dbEmpty.rows ++ [rec] ∧
      rec.action = pyUpper "create_payment" ∧ rec.resource_type = "unknown" :=
  ⟨rfl, by decide, capture_default_action_and_resource "LOW" "create_payment" envSys dbEmpty
    (Except.ok 1) rfl⟩

/-- C9: when the g object binds no user, the persisted record carries
user_id system, so user_id is never absent. -/
theorem log_action_user_defaults_to_system (env : Env) (db : DB) (a rt : String)
    (rid : Option String) (ov nv : Option Json) (bc : Option String) (rl : String)
    (cf : Option Json) (hg : env.g.user_id = none) (hdb : db.commitFails = false) :
    ∃ rec, (log_action env db a rt rid ov nv bc rl cf).2.rows = db.rows ++ [rec] ∧
      rec.user_id = "system" := by
  have h := log_action_ok env db a rt rid ov nv bc rl cf hdb
  refine ⟨builtRecord env a rt rid ov nv bc rl cf, ?_, ?_⟩
  · rw [h]
  · show (env.g.user_id).getD "system" = "system"
    rw [hg]
    rfl

/-- C9 witness: the context-free environment envSys yields a record
with user_id system. -/
theorem log_action_user_defaults_to_system_witness :
    envSys.g.user_id = none ∧ dbEmpty.commitFails = false ∧
    ∃ rec, (log_action envSys dbEmpty "HEALTH_CHECK" "system" none none none none "LOW"
        none).2.rows = dbEmpty.rows ++ [rec] ∧ rec.user_id = "system" :=
  ⟨rfl, rfl, log_action_user_defaults_to_system envSys dbEmpty "HEALTH_CHECK" "system" none
    none none none "LOW" none rfl rfl⟩

/-- C10: the wrapper computes an elapsed time on the success path but
log_action takes no such argument, so every record persisted through
the wrapper, on either path, has a NULL processing_time_ms column. -/
theorem capture_processing_time_absent {α : Type} (action resource_type : Option String)
    (risk fname : String) (env : Env) (db : DB) (res : Except PyErr α)
    (hdb : db.commitFails = false) :
    ∃ rec, (decorated_function action resource_type risk fname env db res).2.rows
        = db.rows ++ [rec] ∧ rec.processing_time_ms = none := by
  cases res with
  | ok v =>
      have h := log_action_ok env db (pyOrStr action (pyUpper fname))
        (pyOrStr resource_type "unknown") none none none
        (some ("Function " ++ fname ++ " executed successfully")) risk none hdb
      refine ⟨builtRecord env (pyOrStr action (pyUpper fname))
        (pyOrStr resource_type "unknown") none none none
        (some ("Function " ++ fname ++ " executed successfully")) risk none, ?_, rfl⟩
      show (log_action env db (pyOrStr action (pyUpper fname))
        (pyOrStr resource_type "unknown") none none none
        (some ("Function " ++ fname ++ " executed successfully")) risk none).2.rows = _
      rw [h]
  | error e =>
      have h := log_action_ok env db (pyOrStr action (pyUpper fname))
        (pyOrStr resource_type "unknown") none none none
        (some ("Error occurred: " ++ e.msg)) "HIGH" none hdb
      refine ⟨builtRecord env (pyOrStr action (pyUpper fname))
        (pyOrStr resource_type "unknown") none none none
        (some ("Error occurred: " ++ e.msg)) "HIGH" none, ?_, rfl⟩
      show (log_action env db (pyOrStr action (pyUpper fname))
        (pyOrStr resource_type "unknown") none none none
        (some ("Error occurred: " ++ e.msg)) "HIGH" none).2.rows = _
      rw [h]

/-- C10 witness: a failing wrapped payment still yields a record whose
processing_time_ms is NULL. -/
theorem capture_processing_time_absent_witness :
    dbEmpty.commitFails = false ∧
    ∃ rec, (decorated_function (some "CREATE") (some "payment") "MEDIUM" "create_payment"
        envSys dbEmpty (Except.error { msg := "timeout" } : Except PyErr Nat)).2.rows
        = dbEmpty.rows ++ [rec] ∧ rec.processing_time_ms = none :=
  ⟨rfl, capture_processing_time_absent (some "CREATE") (some "payment") "MEDIUM"
    "create_payment" envSys dbEmpty (Except.error { msg := "timeout" }) rfl⟩

end AuditTrail
